import Mathlib

/-!
# StockESP: the configuration header of the HTIT-WB32 stock ticker

`HTIT-WB32-StockTicker/config.h` is a list of preprocessor constants.  Each
`#define` becomes one Lean constant of the same name, with the value the header
gives it.  Integer literals are `Int` (the C type of `5`, `15`, `0x3c`), string
literals are `String`, and the floating literals `80.0`, `10.0`, `5.0`, `0.0`
are the rationals they denote exactly.
-/

namespace StockESP

/-! ## WiFi settings (config.h, lines 13-20) -/

def WIFI_SSID_1 : String := "YOUR_WIFI_SSID"
def WIFI_PASSWORD_1 : String := "YOUR_WIFI_PASSWORD"
def WIFI_SSID_2 : String := ""
def WIFI_PASSWORD_2 : String := ""

/-! ## Finnhub API (config.h, lines 22-24) -/

def FINNHUB_API_KEY : String := "YOUR_FINNHUB_API_KEY"

/-! ## Stock tickers (config.h, lines 26-36) -/

def STOCK_1 : String := "TSLA"
def STOCK_2 : String := "AAPL"
def STOCK_3 : String := "NVDA"
def STOCK_4 : String := "MSFT"
def STOCK_5 : String := "GOOGL"

def NUM_STOCKS : Int := 5

/-! ## Portfolio, shares owned (config.h, lines 38-45) -/

def SHARES_STOCK_1 : ℚ := 80.0
def SHARES_STOCK_2 : ℚ := 10.0
def SHARES_STOCK_3 : ℚ := 5.0
def SHARES_STOCK_4 : ℚ := 0.0
def SHARES_STOCK_5 : ℚ := 0.0

/-! ## Display settings (config.h, lines 47-53) -/

def REFRESH_SECONDS : Int := 15
def FLIP_DISPLAY : Bool := true

/-! ## Hardware pins (config.h, lines 55-63) -/

def OLED_SDA_PIN : Int := 4
def OLED_SCL_PIN : Int := 15
def OLED_RST_PIN : Int := 16
def OLED_I2C_ADDR : Int := 0x3c
def BUTTON_PIN : Int := 0

/-! ## Which numbered macros the header defines

The header defines `STOCK_1` to `STOCK_5` and `SHARES_STOCK_1` to
`SHARES_STOCK_5` and no other numbered name.  The two tables below record, for a
number `n`, the value of the macro of that number, or `none` when the header
defines no such macro. -/

/-- The value of the macro `STOCK_n` of config.h, when the header defines it. -/
def STOCK_n : Nat → Option String
  | 1 => some STOCK_1
  | 2 => some STOCK_2
  | 3 => some STOCK_3
  | 4 => some STOCK_4
  | 5 => some STOCK_5
  | _ => none

/-- The value of the macro `SHARES_STOCK_n` of config.h, when the header defines it. -/
def SHARES_STOCK_n : Nat → Option ℚ
  | 1 => some SHARES_STOCK_1
  | 2 => some SHARES_STOCK_2
  | 3 => some SHARES_STOCK_3
  | 4 => some SHARES_STOCK_4
  | 5 => some SHARES_STOCK_5
  | _ => none

/-- The numbers `n` for which the header defines `STOCK_n`, in declaration order. -/
def definedStockNumbers : List Nat := [1, 2, 3, 4, 5]

/-! ## The configuration store

The header holds constants only; the store that reads them (`load` and the
accessors) is not part of the header.  It is modelled here from the
specification of the repository, sections 3, 4.1 and 7. -/

/-- Modelled from the spec: the NetworkCredential record of section 3 (the
header has only the four WIFI constants). -/
structure NetworkCredential where
  ssid : String
  password : String
  deriving DecidableEq, Repr

/-- Modelled from the spec: the TickerEntry record of section 3, a symbol and
the shares owned. -/
structure TickerEntry where
  symbol : String
  sharesOwned : ℚ
  deriving DecidableEq, Repr

/-- Modelled from the spec: the DisplaySettings record of section 3. -/
structure DisplaySettings where
  refreshIntervalSeconds : Int
  flipped : Bool
  deriving DecidableEq, Repr

/-- Modelled from the spec: the HardwarePinMap record of section 3. -/
structure HardwarePinMap where
  dataPin : Int
  clockPin : Int
  resetPin : Int
  buttonPin : Int
  displayAddress : Int
  deriving DecidableEq, Repr

/-- Modelled from the spec: the static definitions that the load operation
reads, one field per row of the table of section 6.  The declared tickers are
the pairs of STOCK_i and SHARES_STOCK_i in declaration order. -/
structure StaticInput where
  wifiSsid1 : String
  wifiPassword1 : String
  wifiSsid2 : String
  wifiPassword2 : String
  apiKey : String
  tickers : List TickerEntry
  numStocks : Int
  refreshSeconds : Int
  flipDisplay : Bool
  sdaPin : Int
  sclPin : Int
  rstPin : Int
  i2cAddr : Int
  buttonPin : Int
  deriving DecidableEq, Repr

/-- Modelled from the spec: the Configuration aggregate of section 3. -/
structure Configuration where
  primary : NetworkCredential
  secondary : NetworkCredential
  apiKey : String
  tickers : List TickerEntry
  numStocks : Nat
  display : DisplaySettings
  pins : HardwarePinMap
  deriving DecidableEq, Repr

/-- Modelled from the spec: one entry of a ValidationError (section 7), naming
the field whose invariant of section 3 is broken.  Ticker numbers count from 1,
as the macro names do. -/
inductive Violation where
  | numStocks
  | tickerCount
  | emptySymbol (n : Nat)
  | negativeShares (n : Nat)
  | refreshInterval
  | negativePin
  | pinConflict
  | displayAddress
  | apiKey
  | primarySsid
  deriving DecidableEq, Repr

/-- Modelled from the spec: the fixed maximum of five tickers of section 3. -/
def maxStocks : Nat := 5

/-- Modelled from the spec: the violations of the TickerEntry invariant
(non-empty symbol, shares not negative) among the entries numbered from n. -/
def tickerViolations : Nat → List TickerEntry → List Violation
  | _, [] => []
  | n, t :: ts =>
    (if t.symbol = "" then [Violation.emptySymbol n] else []) ++
    (if t.sharesOwned < 0 then [Violation.negativeShares n] else []) ++
    tickerViolations (n + 1) ts

/-- Modelled from the spec: every invariant of section 3 that the static
definitions break, in the order of the sections of the header. -/
def violations (i : StaticInput) : List Violation :=
  (if i.wifiSsid1 = "" then [Violation.primarySsid] else []) ++
  (if i.apiKey = "" then [Violation.apiKey] else []) ++
  tickerViolations 1 i.tickers ++
  (if i.numStocks < 1 ∨ (maxStocks : Int) < i.numStocks then [Violation.numStocks] else []) ++
  (if maxStocks < i.tickers.length ∨ (i.tickers.length : Int) < i.numStocks
    then [Violation.tickerCount] else []) ++
  (if i.refreshSeconds < 10 then [Violation.refreshInterval] else []) ++
  (if i.sdaPin < 0 ∨ i.sclPin < 0 ∨ i.rstPin < 0 ∨ i.buttonPin < 0
    then [Violation.negativePin] else []) ++
  (if [i.sdaPin, i.sclPin, i.rstPin, i.buttonPin].Nodup then [] else [Violation.pinConflict]) ++
  (if i.i2cAddr < 0 ∨ 127 < i.i2cAddr then [Violation.displayAddress] else [])

/-- Modelled from the spec: the Configuration that the static definitions
describe, field for field. -/
def build (i : StaticInput) : Configuration where
  primary := ⟨i.wifiSsid1, i.wifiPassword1⟩
  secondary := ⟨i.wifiSsid2, i.wifiPassword2⟩
  apiKey := i.apiKey
  tickers := i.tickers
  numStocks := i.numStocks.toNat
  display := ⟨i.refreshSeconds, i.flipDisplay⟩
  pins := ⟨i.sdaPin, i.sclPin, i.rstPin, i.buttonPin, i.i2cAddr⟩

/-- Modelled from the spec: load of section 4.1.  It returns the Configuration
when no invariant is broken and otherwise fails with the list of every
violation; it builds nothing in that case. -/
def load (i : StaticInput) : Except (List Violation) Configuration :=
  match violations i with
  | [] => Except.ok (build i)
  | v :: vs => Except.error (v :: vs)

/-- Modelled from the spec: getPrimaryCredential of section 4.1. -/
def getPrimaryCredential (c : Configuration) : NetworkCredential := c.primary

/-- Modelled from the spec: getSecondaryCredential of section 4.1; a secondary
credential with an empty ssid is reported as absent. -/
def getSecondaryCredential (c : Configuration) : Option NetworkCredential :=
  if c.secondary.ssid = "" then none else some c.secondary

/-- Modelled from the spec: getTickers of section 4.1, the first numStocks
declared entries in declaration order. -/
def getTickers (c : Configuration) : List TickerEntry := c.tickers.take c.numStocks

/-- Modelled from the spec: the invariants of section 3 on a Configuration. -/
structure Configuration.Valid (c : Configuration) : Prop where
  primarySsid : c.primary.ssid ≠ ""
  apiKey : c.apiKey ≠ ""
  symbols : ∀ t ∈ c.tickers, t.symbol ≠ ""
  shares : ∀ t ∈ c.tickers, 0 ≤ t.sharesOwned
  numStocksLower : 1 ≤ c.numStocks
  numStocksUpper : c.numStocks ≤ maxStocks
  tickerCount : c.numStocks ≤ c.tickers.length
  tickerMax : c.tickers.length ≤ maxStocks
  refresh : 10 ≤ c.display.refreshIntervalSeconds
  pinsNonneg : 0 ≤ c.pins.dataPin ∧ 0 ≤ c.pins.clockPin ∧ 0 ≤ c.pins.resetPin ∧
    0 ≤ c.pins.buttonPin
  pinsDistinct : [c.pins.dataPin, c.pins.clockPin, c.pins.resetPin, c.pins.buttonPin].Nodup
  address : 0 ≤ c.pins.displayAddress ∧ c.pins.displayAddress ≤ 127

/-- Modelled from the spec: the static definitions as config.h ships them; every
field is the macro of the header that the table of section 6 lists for it. -/
def shippedInput : StaticInput where
  wifiSsid1 := WIFI_SSID_1
  wifiPassword1 := WIFI_PASSWORD_1
  wifiSsid2 := WIFI_SSID_2
  wifiPassword2 := WIFI_PASSWORD_2
  apiKey := FINNHUB_API_KEY
  tickers := [⟨STOCK_1, SHARES_STOCK_1⟩, ⟨STOCK_2, SHARES_STOCK_2⟩, ⟨STOCK_3, SHARES_STOCK_3⟩,
    ⟨STOCK_4, SHARES_STOCK_4⟩, ⟨STOCK_5, SHARES_STOCK_5⟩]
  numStocks := NUM_STOCKS
  refreshSeconds := REFRESH_SECONDS
  flipDisplay := FLIP_DISPLAY
  sdaPin := OLED_SDA_PIN
  sclPin := OLED_SCL_PIN
  rstPin := OLED_RST_PIN
  i2cAddr := OLED_I2C_ADDR
  buttonPin := BUTTON_PIN

/-- Modelled from the spec: the TickerEntry that pairs STOCK_n with
SHARES_STOCK_n, when the header defines both. -/
def tickerEntry (n : Nat) : Option TickerEntry :=
  match STOCK_n n, SHARES_STOCK_n n with
  | some s, some q => some ⟨s, q⟩
  | _, _ => none

/-- Modelled from the spec: the ticker sequence of the header, STOCK_i paired
with SHARES_STOCK_i for i from 1 to NUM_STOCKS, in that order. -/
def tickerSequence : List TickerEntry :=
  (List.range NUM_STOCKS.toNat).filterMap fun k => tickerEntry (k + 1)

/-- Modelled from the spec: Scenario B of section 8, the shipped definitions with NUM_STOCKS
set to 0. -/
def scenarioB : StaticInput := { shippedInput with numStocks := 0 }

/-- Modelled from the spec: Scenario D of section 8, the shipped definitions with BUTTON_PIN
set to 4, the pin of OLED_SDA_PIN. -/
def scenarioD : StaticInput := { shippedInput with buttonPin := 4 }

/-! ## Facts about the constants of the header -/

theorem shares_values :
    SHARES_STOCK_1 = 80 ∧ SHARES_STOCK_2 = 10 ∧ SHARES_STOCK_3 = 5 ∧
      SHARES_STOCK_4 = 0 ∧ SHARES_STOCK_5 = 0 := by
  refine ⟨?_, ?_, ?_, ?_, ?_⟩ <;>
    simp only [SHARES_STOCK_1, SHARES_STOCK_2, SHARES_STOCK_3, SHARES_STOCK_4, SHARES_STOCK_5] <;>
    norm_num

theorem violations_shipped : violations shippedInput = [] := by
  obtain ⟨h1, h2, h3, h4, h5⟩ := shares_values
  simp [violations, shippedInput, tickerViolations, h1, h2, h3, h4, h5, maxStocks]
  decide

theorem tickerSequence_eq :
    tickerSequence = [⟨"TSLA", 80.0⟩, ⟨"AAPL", 10.0⟩, ⟨"NVDA", 5.0⟩, ⟨"MSFT", 0.0⟩,
      ⟨"GOOGL", 0.0⟩] := by
  have hn : NUM_STOCKS.toNat = 5 := by decide
  simp [tickerSequence, hn, List.range_succ, tickerEntry, STOCK_n, SHARES_STOCK_n, STOCK_1,
    STOCK_2, STOCK_3, STOCK_4, STOCK_5, SHARES_STOCK_1, SHARES_STOCK_2, SHARES_STOCK_3,
    SHARES_STOCK_4, SHARES_STOCK_5]

theorem tickerSequence_eq_declared : tickerSequence = shippedInput.tickers := by
  have hn : NUM_STOCKS.toNat = 5 := by decide
  simp [tickerSequence, hn, List.range_succ, tickerEntry, STOCK_n, SHARES_STOCK_n, shippedInput]

/-! ## Facts about the modelled store -/

theorem load_of_violations_nil {i : StaticInput} (h : violations i = []) :
    load i = Except.ok (build i) := by
  simp [load, h]

theorem load_of_mem_violations {i : StaticInput} {v : Violation} (h : v ∈ violations i) :
    load i = Except.error (violations i) := by
  unfold load
  cases hv : violations i with
  | nil => rw [hv] at h; cases h
  | cons w ws => rfl

theorem load_eq_ok {i : StaticInput} {c : Configuration} (h : load i = Except.ok c) :
    violations i = [] ∧ c = build i := by
  unfold load at h
  cases hv : violations i with
  | nil =>
    rw [hv] at h
    injection h with h
    exact ⟨rfl, h.symm⟩
  | cons w ws =>
    rw [hv] at h
    cases h

theorem tickerViolations_nil {n : Nat} {ts : List TickerEntry}
    (h : tickerViolations n ts = []) : ∀ t ∈ ts, t.symbol ≠ "" ∧ 0 ≤ t.sharesOwned := by
  induction ts generalizing n with
  | nil => intro t ht; cases ht
  | cons a as ih =>
    simp only [tickerViolations, List.append_eq_nil, ite_eq_right_iff, List.cons_ne_nil,
      imp_false, not_lt] at h
    obtain ⟨⟨hs, hq⟩, hrest⟩ := h
    intro t ht
    rcases List.mem_cons.mp ht with rfl | ht
    · exact ⟨hs, hq⟩
    · exact ih hrest t ht

theorem build_valid {i : StaticInput} (h : violations i = []) : (build i).Valid := by
  simp only [violations, List.append_eq_nil, ite_eq_right_iff, List.cons_ne_nil, imp_false,
    ite_eq_left_iff, not_or, not_lt, not_not] at h
  obtain ⟨⟨⟨⟨⟨⟨⟨⟨h1, h2⟩, h3⟩, h4⟩, h5⟩, h6⟩, h7⟩, h8⟩, h9⟩ := h
  have ht := tickerViolations_nil h3
  have hmax : (maxStocks : Int) = 5 := rfl
  refine ⟨h1, h2, fun t m => (ht t m).1, fun t m => (ht t m).2, ?_, ?_, ?_, h5.1, h6, h7,
    h8, h9⟩
  · show 1 ≤ i.numStocks.toNat
    omega
  · show i.numStocks.toNat ≤ maxStocks
    have : maxStocks = 5 := rfl
    omega
  · show i.numStocks.toNat ≤ i.tickers.length
    have := h5.2
    omega

theorem mem_violations_numStocks {i : StaticInput}
    (h : i.numStocks < 1 ∨ 5 < i.numStocks) : Violation.numStocks ∈ violations i := by
  have hmax : (maxStocks : Int) = 5 := rfl
  simp [violations, hmax, h]

theorem violations_scenarioB : violations scenarioB = [Violation.numStocks] := by
  obtain ⟨h1, h2, h3, h4, h5⟩ := shares_values
  simp [violations, scenarioB, shippedInput, tickerViolations, h1, h2, h3, h4, h5, maxStocks]
  decide

theorem violations_scenarioD : violations scenarioD = [Violation.pinConflict] := by
  obtain ⟨h1, h2, h3, h4, h5⟩ := shares_values
  simp [violations, scenarioD, shippedInput, tickerViolations, h1, h2, h3, h4, h5, maxStocks]
  decide

theorem violations_shipped_secondary (s p : String) :
    violations { shippedInput with wifiSsid2 := s, wifiPassword2 := p } = [] :=
  violations_shipped

/-! ## The claims -/

/-- C1: the constants of config.h are the Scenario A input (NUM_STOCKS is 5,
REFRESH_SECONDS is 15, FLIP_DISPLAY is true), and the ticker sequence that pairs
STOCK_i with SHARES_STOCK_i for i from 1 to NUM_STOCKS is TSLA 80.0, AAPL 10.0,
NVDA 5.0, MSFT 0.0, GOOGL 0.0: it has NUM_STOCKS entries, its entry at position
k is the pair numbered k + 1, and it is what getTickers yields on the
Configuration that load returns for the shipped definitions. -/
theorem shipped_constants_are_scenarioA :
    NUM_STOCKS = 5 ∧ REFRESH_SECONDS = 15 ∧ FLIP_DISPLAY = true ∧
    tickerSequence = [⟨"TSLA", 80.0⟩, ⟨"AAPL", 10.0⟩, ⟨"NVDA", 5.0⟩, ⟨"MSFT", 0.0⟩,
      ⟨"GOOGL", 0.0⟩] ∧
    (tickerSequence.length : Int) = NUM_STOCKS ∧
    (∀ k : Fin 5, tickerSequence[k.val]? = tickerEntry (k.val + 1)) ∧
    load shippedInput = Except.ok (build shippedInput) ∧
    getTickers (build shippedInput) = tickerSequence := by
  refine ⟨rfl, rfl, rfl, tickerSequence_eq, ?_, ?_, load_of_violations_nil violations_shipped, ?_⟩
  · rw [tickerSequence_eq_declared]
    rfl
  · rw [tickerSequence_eq_declared]
    intro k
    fin_cases k <;> rfl
  · rw [tickerSequence_eq_declared]
    rfl

/-- C2: the active ticker count satisfies 1 <= NUM_STOCKS <= 5, the header
defines STOCK_n and SHARES_STOCK_n exactly for the five numbers 1 to 5, and
NUM_STOCKS does not exceed that number of symbols, so every index from 1 to
NUM_STOCKS names a defined STOCK_n and a defined SHARES_STOCK_n. -/
theorem num_stocks_within_defined :
    1 ≤ NUM_STOCKS ∧ NUM_STOCKS ≤ 5 ∧
    definedStockNumbers.length = 5 ∧
    (∀ n : Nat, (STOCK_n n).isSome = true ↔ n ∈ definedStockNumbers) ∧
    (∀ n : Nat, (SHARES_STOCK_n n).isSome = true ↔ n ∈ definedStockNumbers) ∧
    NUM_STOCKS ≤ (definedStockNumbers.length : Int) ∧
    (∀ n : Nat, 1 ≤ n → (n : Int) ≤ NUM_STOCKS →
      (STOCK_n n).isSome = true ∧ (SHARES_STOCK_n n).isSome = true) := by
  have hS : ∀ n : Nat, (STOCK_n n).isSome = true ↔ n ∈ definedStockNumbers := by
    intro n
    match n with
    | 0 | 1 | 2 | 3 | 4 | 5 => decide
    | k + 6 => simp [STOCK_n, definedStockNumbers]
  have hQ : ∀ n : Nat, (SHARES_STOCK_n n).isSome = true ↔ n ∈ definedStockNumbers := by
    intro n
    match n with
    | 0 => simp [SHARES_STOCK_n, definedStockNumbers]
    | 1 | 2 | 3 | 4 | 5 => simp [SHARES_STOCK_n, definedStockNumbers]
    | k + 6 => simp [SHARES_STOCK_n, definedStockNumbers]
  refine ⟨by decide, by decide, rfl, hS, hQ, by decide, ?_⟩
  intro n h1 h5
  have h5 : n ≤ 5 := by
    have : NUM_STOCKS = 5 := rfl
    omega
  have hm : n ∈ definedStockNumbers := by
    simp only [definedStockNumbers, List.mem_cons, List.mem_singleton]
    omega
  exact ⟨(hS n).mpr hm, (hQ n).mpr hm⟩

/-- C2, at a concrete index: index 5, the last one that NUM_STOCKS allows,
names a defined STOCK_5 and a defined SHARES_STOCK_5. -/
theorem num_stocks_within_defined_witness :
    (STOCK_n 5).isSome = true ∧ (SHARES_STOCK_n 5).isSome = true :=
  num_stocks_within_defined.2.2.2.2.2.2 5 (by decide) (by decide)

/-- C3: the refresh interval is a positive integer and respects the documented
minimum, REFRESH_SECONDS >= 10. -/
theorem refresh_seconds_at_least_minimum : 0 < REFRESH_SECONDS ∧ 10 ≤ REFRESH_SECONDS := by
  decide

/-- C4: the four pin identifiers OLED_SDA_PIN, OLED_SCL_PIN, OLED_RST_PIN and
BUTTON_PIN are non-negative and pairwise distinct; in particular BUTTON_PIN
differs from every OLED pin. -/
theorem pins_nonneg_and_distinct :
    (0 ≤ OLED_SDA_PIN ∧ 0 ≤ OLED_SCL_PIN ∧ 0 ≤ OLED_RST_PIN ∧ 0 ≤ BUTTON_PIN) ∧
    (OLED_SDA_PIN ≠ OLED_SCL_PIN ∧ OLED_SDA_PIN ≠ OLED_RST_PIN ∧ OLED_SCL_PIN ≠ OLED_RST_PIN) ∧
    (BUTTON_PIN ≠ OLED_SDA_PIN ∧ BUTTON_PIN ≠ OLED_SCL_PIN ∧ BUTTON_PIN ≠ OLED_RST_PIN) ∧
    [OLED_SDA_PIN, OLED_SCL_PIN, OLED_RST_PIN, BUTTON_PIN].Nodup := by
  decide

/-- C5: every ticker entry of config.h satisfies the TickerEntry invariant: for
each i from 1 to 5, STOCK_i is a non-empty string and SHARES_STOCK_i >= 0, the
share counts being exactly 80, 10, 5, 0 and 0. -/
theorem ticker_entries_satisfy_invariant :
    (STOCK_1 ≠ "" ∧ STOCK_2 ≠ "" ∧ STOCK_3 ≠ "" ∧ STOCK_4 ≠ "" ∧ STOCK_5 ≠ "") ∧
    (0 ≤ SHARES_STOCK_1 ∧ 0 ≤ SHARES_STOCK_2 ∧ 0 ≤ SHARES_STOCK_3 ∧ 0 ≤ SHARES_STOCK_4 ∧
      0 ≤ SHARES_STOCK_5) ∧
    (SHARES_STOCK_1 = 80 ∧ SHARES_STOCK_2 = 10 ∧ SHARES_STOCK_3 = 5 ∧ SHARES_STOCK_4 = 0 ∧
      SHARES_STOCK_5 = 0) ∧
    (∀ k : Fin 5, ∃ s q, STOCK_n (k.val + 1) = some s ∧ SHARES_STOCK_n (k.val + 1) = some q ∧
      s ≠ "" ∧ 0 ≤ q) := by
  obtain ⟨h1, h2, h3, h4, h5⟩ := shares_values
  have hs : STOCK_1 ≠ "" ∧ STOCK_2 ≠ "" ∧ STOCK_3 ≠ "" ∧ STOCK_4 ≠ "" ∧ STOCK_5 ≠ "" := by
    decide
  have hq : 0 ≤ SHARES_STOCK_1 ∧ 0 ≤ SHARES_STOCK_2 ∧ 0 ≤ SHARES_STOCK_3 ∧
      0 ≤ SHARES_STOCK_4 ∧ 0 ≤ SHARES_STOCK_5 := by
    rw [h1, h2, h3, h4, h5]
    norm_num
  refine ⟨hs, hq, ⟨h1, h2, h3, h4, h5⟩, ?_⟩
  intro k
  fin_cases k
  · exact ⟨STOCK_1, SHARES_STOCK_1, rfl, rfl, hs.1, hq.1⟩
  · exact ⟨STOCK_2, SHARES_STOCK_2, rfl, rfl, hs.2.1, hq.2.1⟩
  · exact ⟨STOCK_3, SHARES_STOCK_3, rfl, rfl, hs.2.2.1, hq.2.2.1⟩
  · exact ⟨STOCK_4, SHARES_STOCK_4, rfl, rfl, hs.2.2.2.1, hq.2.2.2.1⟩
  · exact ⟨STOCK_5, SHARES_STOCK_5, rfl, rfl, hs.2.2.2.2, hq.2.2.2.2⟩

/-- C6: with the shipped credentials the secondary credential is absent and the
primary is present: WIFI_SSID_2 is the empty string, so getSecondaryCredential
reports absent (it does so exactly when the secondary ssid is empty), while
WIFI_SSID_1 is non-empty and the primary pair is WIFI_SSID_1 with
WIFI_PASSWORD_1 whatever the values of the secondary are. -/
theorem secondary_absent_primary_present :
    WIFI_SSID_2 = "" ∧
    getSecondaryCredential (build shippedInput) = none ∧
    (∀ c : Configuration, getSecondaryCredential c = none ↔ c.secondary.ssid = "") ∧
    WIFI_SSID_1 ≠ "" ∧
    getPrimaryCredential (build shippedInput) = ⟨WIFI_SSID_1, WIFI_PASSWORD_1⟩ ∧
    (∀ s p : String,
      load { shippedInput with wifiSsid2 := s, wifiPassword2 := p } =
        Except.ok (build { shippedInput with wifiSsid2 := s, wifiPassword2 := p }) ∧
      getPrimaryCredential (build { shippedInput with wifiSsid2 := s, wifiPassword2 := p }) =
        ⟨WIFI_SSID_1, WIFI_PASSWORD_1⟩) := by
  refine ⟨rfl, rfl, ?_, by decide, rfl, ?_⟩
  · intro c
    unfold getSecondaryCredential
    by_cases h : c.secondary.ssid = "" <;> simp [h]
  · intro s p
    exact ⟨load_of_violations_nil (violations_shipped_secondary s p), rfl⟩

/-- C7: for every configuration whose numStocks lies outside the range from 1
to 5, load fails with a ValidationError that cites numStocks and returns no
Configuration; and whenever load does return a Configuration, for any input,
that Configuration satisfies every invariant, so none is partially valid. -/
theorem load_rejects_numStocks_out_of_range (i : StaticInput)
    (h : i.numStocks < 1 ∨ 5 < i.numStocks) :
    (∃ vs, load i = Except.error vs ∧ Violation.numStocks ∈ vs) ∧
    (∀ c, load i ≠ Except.ok c) ∧
    (∀ j c, load j = Except.ok c → c.Valid) := by
  have hm := mem_violations_numStocks h
  have hl := load_of_mem_violations hm
  refine ⟨⟨violations i, hl, hm⟩, ?_, ?_⟩
  · intro c hc
    rw [hl] at hc
    cases hc
  · intro j c hc
    obtain ⟨hv, rfl⟩ := load_eq_ok hc
    exact build_valid hv

/-- C7, at Scenario B: with NUM_STOCKS set to 0 the count is outside the range,
load fails and its ValidationError is the single entry numStocks. -/
theorem load_rejects_numStocks_out_of_range_witness :
    (scenarioB.numStocks < 1 ∨ 5 < scenarioB.numStocks) ∧
    load scenarioB = Except.error [Violation.numStocks] ∧
    (∃ vs, load scenarioB = Except.error vs ∧ Violation.numStocks ∈ vs) ∧
    (∀ c, load scenarioB ≠ Except.ok c) := by
  have hB : scenarioB.numStocks < 1 ∨ 5 < scenarioB.numStocks := Or.inl (by decide)
  have hT := load_rejects_numStocks_out_of_range scenarioB hB
  refine ⟨hB, ?_, hT.1, hT.2.1⟩
  simp [load, violations_scenarioB]

/-- C8: the display bus address is a valid 7-bit address, 0 <= OLED_I2C_ADDR <=
127, and OLED_I2C_ADDR is 0x3c, that is 60. -/
theorem oled_i2c_addr_is_seven_bit :
    0 ≤ OLED_I2C_ADDR ∧ OLED_I2C_ADDR ≤ 127 ∧ OLED_I2C_ADDR = 60 := by
  decide

/-- C9: the API key of config.h, FINNHUB_API_KEY, is a non-empty string. -/
theorem finnhub_api_key_nonempty : FINNHUB_API_KEY ≠ "" ∧ 0 < FINNHUB_API_KEY.length := by
  decide

/-- C10: with one quote request per active ticker per refresh cycle the shipped
settings stay within 60 calls per minute: NUM_STOCKS * 60 <= 60 *
REFRESH_SECONDS, the rate being 5 * 60 / 15 = 20; and for every count from 1 to
5 and every refresh interval of at least 10 seconds the rate, count * 60 /
interval, is at most 30 calls per minute, both as an exact quotient and rounded
down to an integer. -/
theorem request_rate_within_free_tier :
    NUM_STOCKS * 60 ≤ 60 * REFRESH_SECONDS ∧
    NUM_STOCKS * 60 / REFRESH_SECONDS = 20 ∧
    (NUM_STOCKS : ℚ) * 60 / (REFRESH_SECONDS : ℚ) = 20 ∧
    NUM_STOCKS * 60 / REFRESH_SECONDS ≤ 60 ∧
    (∀ n r : Int, 1 ≤ n → n ≤ 5 → 10 ≤ r →
      n * 60 / r ≤ 30 ∧ (n : ℚ) * 60 / (r : ℚ) ≤ 30) := by
  refine ⟨by decide, by decide, ?_, by decide, ?_⟩
  · simp only [NUM_STOCKS, REFRESH_SECONDS]
    norm_num
  · intro n r h1 h5 h10
    have hr : 0 < r := by omega
    constructor
    · apply Int.ediv_le_of_le_mul hr
      omega
    · have hrq : (0 : ℚ) < (r : ℚ) := by exact_mod_cast hr
      rw [div_le_iff₀ hrq]
      have hn : (n : ℚ) ≤ 5 := by exact_mod_cast h5
      have hr10 : (10 : ℚ) ≤ (r : ℚ) := by exact_mod_cast h10
      linarith

/-- C10, at the shipped settings: NUM_STOCKS lies between 1 and 5,
REFRESH_SECONDS is at least 10, and the rate is at most 30 calls per minute. -/
theorem request_rate_within_free_tier_witness :
    NUM_STOCKS * 60 / REFRESH_SECONDS ≤ 30 ∧
    (NUM_STOCKS : ℚ) * 60 / (REFRESH_SECONDS : ℚ) ≤ 30 :=
  request_rate_within_free_tier.2.2.2.2 NUM_STOCKS REFRESH_SECONDS (by decide) (by decide)
    (by decide)

end StockESP
